import Mathlib

/-!
Shallow embedding of the elastic guest-memory devices (virtio balloon and
faascale-mem) of the firecracker-faascale VMM, together with proofs about
the statistics model, configuration updates, config-space access, the
guest-memory range operators, queue processing and snapshot restore.

Machine integers are modelled as `Nat` with explicit `% 2 ^ w` where
overflow matters.  Host syscalls (mmap/madvise/ioctl) are modelled by an
oracle environment plus an explicit call trace; eventfd/irq writes are
modelled as emitted events.  A Rust panic (e.g. `unwrap` on `None`,
out-of-bounds slice indexing) is modelled as `Option.none`.
-/

set_option autoImplicit false

deriving instance DecidableEq for Except

namespace FcMem

/-- Device error type, from `devices/virtio/faascale_mem/mod.rs` `enum Error`
(the balloon variant in `devices/virtio/balloon` has the same constructors;
io-error payloads are dropped). -/
inductive BalloonError where
  | DeviceNotActive
  | MalformedDescriptor
  | MalformedPayload
  | StatisticsStateChange
  | TooManyPagesRequested
  deriving DecidableEq, Repr

/-- Faascale-mem device error type, from `devices/virtio/faascale_mem/mod.rs`. -/
inductive FaascaleMemError where
  | DeviceNotActive
  | MalformedDescriptor
  | MalformedPayload
  | StatisticsStateChange
  | TooManyPagesRequested
  deriving DecidableEq, Repr

/-- Range-operator error type, from `devices/virtio/faascale_mem/mod.rs`
`enum RemoveRegionError` (io-error payloads dropped). -/
inductive RemoveRegionError where
  | AddressTranslation
  | MalformedRange
  | MadviseFail
  | MmapFail
  | RegionNotFound
  deriving DecidableEq, Repr

/-- One statistics wire entry `BalloonStat { tag: u16, val: u64 }`
(`balloon/device.rs`). -/
structure BalloonStat where
  tag : Nat
  val : Nat
  deriving DecidableEq, Repr

/-- Statistics snapshot `BalloonStats` (`balloon/device.rs`): four computed
page/MiB counters plus ten optional guest-reported fields. -/
structure BalloonStats where
  target_pages : Nat := 0
  actual_pages : Nat := 0
  target_mib : Nat := 0
  actual_mib : Nat := 0
  swap_in : Option Nat := none
  swap_out : Option Nat := none
  major_faults : Option Nat := none
  minor_faults : Option Nat := none
  free_memory : Option Nat := none
  total_memory : Option Nat := none
  available_memory : Option Nat := none
  disk_caches : Option Nat := none
  hugetlb_allocations : Option Nat := none
  hugetlb_failures : Option Nat := none
  deriving DecidableEq, Repr

/-- `BalloonStats::update_with_stat` (`balloon/device.rs` lines 160-179):
match on the tag constants `VIRTIO_BALLOON_S_*` (0 through 9), setting the
matching optional field to `Some(val)`; any other tag yields
`MalformedPayload`. -/
def BalloonStats.update_with_stat (s : BalloonStats) (stat : BalloonStat) :
    Except BalloonError BalloonStats :=
  let val := some stat.val
  match stat.tag with
  | 0 => .ok { s with swap_in := val }
  | 1 => .ok { s with swap_out := val }
  | 2 => .ok { s with major_faults := val }
  | 3 => .ok { s with minor_faults := val }
  | 4 => .ok { s with free_memory := val }
  | 5 => .ok { s with total_memory := val }
  | 6 => .ok { s with available_memory := val }
  | 7 => .ok { s with disk_caches := val }
  | 8 => .ok { s with hugetlb_allocations := val }
  | 9 => .ok { s with hugetlb_failures := val }
  | _ => .error .MalformedPayload

/-- Projection of the optional statistics field addressed by a tag, used to
state which field `update_with_stat` touches. -/
def balloonStatField (tag : Nat) (s : BalloonStats) : Option Nat :=
  match tag with
  | 0 => s.swap_in
  | 1 => s.swap_out
  | 2 => s.major_faults
  | 3 => s.minor_faults
  | 4 => s.free_memory
  | 5 => s.total_memory
  | 6 => s.available_memory
  | 7 => s.disk_caches
  | 8 => s.hugetlb_allocations
  | 9 => s.hugetlb_failures
  | _ => none

/-- One statistics wire entry `FaascaleMemStat { tag: u16, val: u64 }`
(`faascale_mem/device.rs`). -/
structure FaascaleMemStat where
  tag : Nat
  val : Nat
  deriving DecidableEq, Repr

/-- Statistics snapshot `FaascaleMemStats` (`faascale_mem/device.rs`): the
ten optional guest-reported fields. -/
structure FaascaleMemStats where
  swap_in : Option Nat := none
  swap_out : Option Nat := none
  major_faults : Option Nat := none
  minor_faults : Option Nat := none
  free_memory : Option Nat := none
  total_memory : Option Nat := none
  available_memory : Option Nat := none
  disk_caches : Option Nat := none
  hugetlb_allocations : Option Nat := none
  hugetlb_failures : Option Nat := none
  deriving DecidableEq, Repr

/-- `FaascaleMemStats::update_with_stat` (`faascale_mem/device.rs` lines
145-164): match on `VIRTIO_FAASCALE_MEM_S_*` (0 through 9, values from
`faascale_mem/mod.rs`). -/
def FaascaleMemStats.update_with_stat (s : FaascaleMemStats)
    (stat : FaascaleMemStat) : Except FaascaleMemError FaascaleMemStats :=
  let val := some stat.val
  match stat.tag with
  | 0 => .ok { s with swap_in := val }
  | 1 => .ok { s with swap_out := val }
  | 2 => .ok { s with major_faults := val }
  | 3 => .ok { s with minor_faults := val }
  | 4 => .ok { s with free_memory := val }
  | 5 => .ok { s with total_memory := val }
  | 6 => .ok { s with available_memory := val }
  | 7 => .ok { s with disk_caches := val }
  | 8 => .ok { s with hugetlb_allocations := val }
  | 9 => .ok { s with hugetlb_failures := val }
  | _ => .error .MalformedPayload

/-- Projection of the optional faascale statistics field addressed by a tag. -/
def faascaleStatField (tag : Nat) (s : FaascaleMemStats) : Option Nat :=
  match tag with
  | 0 => s.swap_in
  | 1 => s.swap_out
  | 2 => s.major_faults
  | 3 => s.minor_faults
  | 4 => s.free_memory
  | 5 => s.total_memory
  | 6 => s.available_memory
  | 7 => s.disk_caches
  | 8 => s.hugetlb_allocations
  | 9 => s.hugetlb_failures
  | _ => none

lemma balloon_update_with_stat_tag_ge (s : BalloonStats) (t v : Nat)
    (h : 10 ≤ t) :
    BalloonStats.update_with_stat s ⟨t, v⟩ = .error .MalformedPayload := by
  obtain ⟨k, rfl⟩ := Nat.exists_eq_add_of_le' h
  rfl

lemma faascale_update_with_stat_tag_ge (s : FaascaleMemStats) (t v : Nat)
    (h : 10 ≤ t) :
    FaascaleMemStats.update_with_stat s ⟨t, v⟩ = .error .MalformedPayload := by
  obtain ⟨k, rfl⟩ := Nat.exists_eq_add_of_le' h
  rfl

/-- C1: for every statistics entry with a recognized tag (0 through 9),
`update_with_stat` (balloon and faascale-mem variants) returns `Ok` of a
snapshot in which exactly the optional field matching that tag is
`Some(val)` and every other field (the other nine optional fields and, for
the balloon, the four computed counters) is unchanged; for every entry with
an unrecognized tag it returns a `MalformedPayload` error (the snapshot is
untouched, as no `Ok` snapshot is produced). -/
theorem update_with_stat_spec (s : BalloonStats) (f : FaascaleMemStats)
    (t v : Nat) :
    (t < 10 → ∃ s', BalloonStats.update_with_stat s ⟨t, v⟩ = .ok s' ∧
      balloonStatField t s' = some v ∧
      (∀ u, u < 10 → u ≠ t → balloonStatField u s' = balloonStatField u s) ∧
      s'.target_pages = s.target_pages ∧ s'.actual_pages = s.actual_pages ∧
      s'.target_mib = s.target_mib ∧ s'.actual_mib = s.actual_mib) ∧
    (10 ≤ t → BalloonStats.update_with_stat s ⟨t, v⟩ =
      .error .MalformedPayload) ∧
    (t < 10 → ∃ f', FaascaleMemStats.update_with_stat f ⟨t, v⟩ = .ok f' ∧
      faascaleStatField t f' = some v ∧
      (∀ u, u < 10 → u ≠ t → faascaleStatField u f' = faascaleStatField u f)) ∧
    (10 ≤ t → FaascaleMemStats.update_with_stat f ⟨t, v⟩ =
      .error .MalformedPayload) := by
  refine ⟨fun h => ?_, fun h => balloon_update_with_stat_tag_ge s t v h,
    fun h => ?_, fun h => faascale_update_with_stat_tag_ge f t v h⟩
  · interval_cases t <;>
      exact ⟨_, rfl, rfl,
        by intro u hu hne; interval_cases u <;> first | rfl | exact absurd rfl hne,
        rfl, rfl, rfl, rfl⟩
  · interval_cases t <;>
      exact ⟨_, rfl, rfl,
        by intro u hu hne; interval_cases u <;> first | rfl | exact absurd rfl hne⟩

/-- Witness for C1: instantiates `update_with_stat_spec` at tag 4
(`MEMFREE`) with value 7, and at the unrecognized tag 99. -/
theorem update_with_stat_spec_witness :
    (∃ s', BalloonStats.update_with_stat {} ⟨4, 7⟩ = .ok s' ∧
      balloonStatField 4 s' = some 7) ∧
    FaascaleMemStats.update_with_stat {} ⟨99, 7⟩ =
      .error .MalformedPayload := by
  obtain ⟨h1, _, _, h4⟩ := update_with_stat_spec {} {} 4 7
  obtain ⟨s', hs1, hs2, _⟩ := h1 (by norm_num)
  refine ⟨⟨s', hs1, hs2⟩, ?_⟩
  obtain ⟨_, _, _, h4'⟩ := update_with_stat_spec ({} : BalloonStats) {} 99 7
  exact h4' (by norm_num)

/-- Device config space `ConfigSpace { num_pages: u32, actual_pages: u32 }`
(`balloon/device.rs` and `faascale_mem/device.rs`; both are identical). -/
structure ConfigSpace where
  num_pages : Nat := 0
  actual_pages : Nat := 0
  deriving DecidableEq, Repr

/-- Little-endian four-byte encoding of a u32 value. -/
def le32 (n : Nat) : List Nat :=
  [n % 256, n / 256 % 256, n / 65536 % 256, n / 16777216 % 256]

/-- The byte view `config_space.as_slice()`: eight bytes, two little-endian
u32 fields (`CONFIG_SPACE_SIZE = 8` in `faascale_mem/mod.rs`). -/
def ConfigSpace.bytes (c : ConfigSpace) : List Nat :=
  le32 c.num_pages ++ le32 c.actual_pages

/-- `read_config` at the byte level (`balloon/device.rs` lines 690-705 and
`faascale_mem/device.rs` lines 579-594; the two bodies are textually
identical).  `offset ≥ 8` is logged and ignored; a u64 overflow of
`offset + data.len()` is caught by `checked_add` and silently ignored;
otherwise `data.write_all` copies `bytes[offset..min(offset+len, 8)]` over
the front of `data`, leaving the rest of `data` unchanged.  This function
never panics. -/
def read_config (bytes : List Nat) (offset : Nat) (data : List Nat) :
    List Nat :=
  if 8 ≤ offset then data
  else if offset + data.length < 2 ^ 64 then
    let stop := min (offset + data.length) 8
    ((bytes.drop offset).take (stop - offset)) ++ data.drop (stop - offset)
  else data

/-- `write_config` at the byte level (`balloon/device.rs` lines 707-716 and
`faascale_mem/device.rs` lines 596-605; identical bodies).  The bound check
is the unchecked u64 sum `offset + data_len > config_len`; when that sum
wraps past `2^64` the check can pass with a huge `offset`, and the
subsequent slice index `bytes[offset..sum]` panics (in a debug build the
addition itself panics).  A panic is modelled as `none`. -/
def write_config (bytes : List Nat) (offset : Nat) (data : List Nat) :
    Option (List Nat) :=
  let sum := (offset + data.length) % 2 ^ 64
  if 8 < sum then some bytes
  else if offset + data.length < 2 ^ 64 then
    some (bytes.take offset ++ data ++ bytes.drop (offset + data.length))
  else none

/-- C7 (amended to the code-bug finding): `read_config` is totally
bounds-checked — a fully out-of-range offset leaves the output buffer
unchanged, a partially out-of-range read fills only the in-range prefix and
leaves the rest of the buffer unchanged, and no input panics; `write_config`
rejects (leaves the config space unchanged) any access whose unwrapped
range leaves the 8 bytes, but an offset/length pair whose u64 sum wraps
can reach the slice indexing and panic. -/
theorem config_access_bounds (c : ConfigSpace) (offset : Nat)
    (data : List Nat) :
    (8 ≤ offset → read_config c.bytes offset data = data) ∧
    (offset + data.length < 2 ^ 64 →
      read_config c.bytes offset data =
        ((c.bytes.drop offset).take (min (offset + data.length) 8 - offset))
          ++ data.drop (min (offset + data.length) 8 - offset)) ∧
    (8 < offset + data.length → offset + data.length < 2 ^ 64 →
      write_config c.bytes offset data = some c.bytes) ∧
    (offset + data.length ≤ 8 →
      write_config c.bytes offset data =
        some (c.bytes.take offset ++ data ++
          c.bytes.drop (offset + data.length))) ∧
    (2 ^ 64 ≤ offset + data.length → (offset + data.length) % 2 ^ 64 ≤ 8 →
      write_config c.bytes offset data = none) := by
  unfold read_config write_config
  refine ⟨fun h => by rw [if_pos h], fun h => ?_, fun h h' => ?_,
    fun h => ?_, fun h h' => ?_⟩
  · by_cases ho : 8 ≤ offset
    · rw [if_pos ho]
      have hs : min (offset + data.length) 8 = 8 := by omega
      rw [hs]
      have hd : c.bytes.drop offset = [] := by
        apply List.drop_eq_nil_of_le
        have : c.bytes.length = 8 := by
          simp [ConfigSpace.bytes, le32]
        omega
      have h8 : 8 - offset = 0 := by omega
      simp [hd, h8]
    · rw [if_neg ho, if_pos h]
  · rw [if_pos (by omega : 8 < (offset + data.length) % 2 ^ 64)]
  · have hlt : offset + data.length < 2 ^ 64 := by
      have : (8 : Nat) < 2 ^ 64 := by norm_num
      omega
    have hmod : (offset + data.length) % 2 ^ 64 = offset + data.length :=
      Nat.mod_eq_of_lt hlt
    rw [if_neg (by omega), if_pos hlt]
  · have hmod : (offset + data.length) % 2 ^ 64 ≤ 8 := h'
    rw [if_neg (by omega), if_neg (by omega)]

/-- Witness for C7's theorem: a fully out-of-range read at offset 8 returns
the buffer unchanged; an in-range write at offset 1 of one byte succeeds;
the wrapped write at offset `2^64 - 1` of two bytes panics. -/
theorem config_access_bounds_witness :
    read_config (ConfigSpace.bytes {}) 8 [5, 6] = [5, 6] ∧
    write_config (ConfigSpace.bytes {}) 1 [9] =
      some [0, 9, 0, 0, 0, 0, 0, 0] ∧
    write_config (ConfigSpace.bytes {}) (2 ^ 64 - 1) [3, 4] = none := by
  obtain ⟨h1, _, _, h4, h5⟩ :=
    config_access_bounds ({} : ConfigSpace) 8 [5, 6]
  obtain ⟨_, _, _, h4', _⟩ := config_access_bounds ({} : ConfigSpace) 1 [9]
  obtain ⟨_, _, _, _, h5''⟩ :=
    config_access_bounds ({} : ConfigSpace) (2 ^ 64 - 1) [3, 4]
  refine ⟨h1 (by norm_num), ?_, ?_⟩
  · rw [h4' (by norm_num)]
    rfl
  · exact h5'' (by norm_num) (by norm_num)

/-- C7 code-bug evidence: `write_config` at offset `u64::MAX` with a
two-byte buffer passes the wrapped bound check and panics at the slice
indexing, instead of being silently ignored. -/
theorem write_config_panics_near_u64_max :
    write_config (ConfigSpace.bytes {}) (2 ^ 64 - 1) [0, 0] = none ∧
    read_config (ConfigSpace.bytes {}) (2 ^ 64 - 1) [7, 7] = [7, 7] := by
  constructor
  · rfl
  · rfl

/-- Queue index of the balloon statistics queue (`STATS_INDEX`,
`balloon/mod.rs`; equal to `FAASCALE_STATS_INDEX` of `faascale_mem/mod.rs`). -/
def STATS_INDEX : Nat := 2

/-- Pages per MiB (`MIB_TO_4K_PAGES = 256`, `faascale_mem/mod.rs` and the
balloon module). -/
def MIB_TO_4K_PAGES : Nat := 256

/-- Observable side effects of device operations: used-ring acknowledgments,
interrupt lines, and guest-memory range operations. -/
inductive Ev where
  | addUsed (queue idx : Nat)
  | irqVring
  | irqConfig
  | memRemove (addr len : Nat) (restored : Bool)
  | memPopulate (addr len : Nat) (restored preAlloc preTdp : Bool)
  deriving DecidableEq, Repr

/-- Balloon device state (`balloon/device.rs` `struct Balloon`): the fields
the modelled operations read or write.  `activated` stands for
`device_state` being `Activated(mem)`; `timer` is the armed periodic
interval of `stats_timer`, `none` when unarmed. -/
structure Balloon where
  activated : Bool
  config_space : ConfigSpace
  restored : Bool
  stats_polling_interval_s : Nat
  stats_desc_index : Option Nat
  latest_stats : BalloonStats
  timer : Option Nat
  deriving DecidableEq, Repr

/-- `mib_to_pages` (`balloon/device.rs` lines 37-41): u32 `checked_mul` by
`MIB_TO_4K_PAGES`, `TooManyPagesRequested` on overflow. -/
def mib_to_pages (amount_mib : Nat) : Except BalloonError Nat :=
  if amount_mib * MIB_TO_4K_PAGES < 2 ^ 32 then
    .ok (amount_mib * MIB_TO_4K_PAGES)
  else .error .TooManyPagesRequested

/-- `Balloon::update_size` (`balloon/device.rs` lines 569-580): on an
activated device write `mib_to_pages(amount_mib)` into
`config_space.num_pages` and trigger a config-change interrupt; otherwise
`DeviceNotActive`. -/
def Balloon.update_size (d : Balloon) (amount_mib : Nat) :
    Except BalloonError (Balloon × List Ev) :=
  if d.activated then
    match mib_to_pages amount_mib with
    | .error e => .error e
    | .ok pages =>
      .ok ({ d with config_space := { d.config_space with num_pages := pages } },
        [.irqConfig])
  else .error .DeviceNotActive

/-- `Balloon::trigger_stats_update` (`balloon/device.rs` lines 552-567):
`device_state.mem().unwrap()` panics (`none`) on an inactive device;
otherwise `stats_desc_index.take()` — when a descriptor is pending it is
acknowledged on the stats queue and a Vring interrupt is signalled, when
none is pending the call logs and is a no-op returning `Ok`. -/
def Balloon.trigger_stats_update (d : Balloon) :
    Option (Except BalloonError (Balloon × List Ev)) :=
  if d.activated then
    some (match d.stats_desc_index with
      | some idx =>
        .ok ({ d with stats_desc_index := none },
          [.addUsed STATS_INDEX idx, .irqVring])
      | none => .ok (d, []))
  else none

/-- `Balloon::update_timer_state` (`balloon/device.rs` lines 599-606): arm
the periodic timer with the current polling interval. -/
def Balloon.update_timer_state (d : Balloon) : Balloon :=
  { d with timer := some d.stats_polling_interval_s }

/-- `Balloon::update_stats_polling_interval` (`balloon/device.rs` lines
583-597): no-op when unchanged, `StatisticsStateChange` when the change
crosses 0, otherwise `trigger_stats_update` then store the new interval and
re-arm the timer. -/
def Balloon.update_stats_polling_interval (d : Balloon) (interval_s : Nat) :
    Option (Except BalloonError (Balloon × List Ev)) :=
  if d.stats_polling_interval_s = interval_s then some (.ok (d, []))
  else if d.stats_polling_interval_s = 0 ∨ interval_s = 0 then
    some (.error .StatisticsStateChange)
  else
    match d.trigger_stats_update with
    | none => none
    | some (.error e) => some (.error e)
    | some (.ok (d', evs)) =>
      some (.ok (Balloon.update_timer_state
        { d' with stats_polling_interval_s := interval_s }, evs))

/-- Faascale-mem device state (`faascale_mem/device.rs` `struct
FaascaleMem`).  `queueCount` models `queues.len()`; `timer` the armed
periodic interval. -/
structure FaascaleMem where
  restored : Bool
  pre_alloc_mem : Bool
  pre_tdp_fault : Bool
  stats_polling_interval_s : Nat
  stats_desc_index : Option Nat
  latest_stats : FaascaleMemStats
  config_space : ConfigSpace
  avail_features : Nat
  acked_features : Nat
  queueCount : Nat
  activated : Bool
  timer : Option Nat
  deriving DecidableEq, Repr

/-- `FaascaleMem::new` (`faascale_mem/device.rs` lines 201-258):
`VIRTIO_F_VERSION_1` (bit 32) always offered, `VIRTIO_FAASCALE_MEM_F_STATS_VQ`
(bit 1) when the polling interval is nonzero; the stats queue is removed
when the interval is zero; device starts inactive with default config
space, no pending stats descriptor and an unarmed timer. -/
def FaascaleMem.new (stats_polling_interval_s : Nat)
    (restored pre_alloc_mem pre_tdp_fault : Bool) : FaascaleMem :=
  { restored := restored
    pre_alloc_mem := pre_alloc_mem
    pre_tdp_fault := pre_tdp_fault
    stats_polling_interval_s := stats_polling_interval_s
    stats_desc_index := none
    latest_stats := {}
    config_space := {}
    avail_features :=
      2 ^ 32 + (if 0 < stats_polling_interval_s then 2 ^ 1 else 0)
    acked_features := 0
    queueCount := if stats_polling_interval_s = 0 then 2 else 3
    activated := false
    timer := none }

/-- `FaascaleMem::trigger_stats_update` (`faascale_mem/device.rs` lines
436-451); same body as the balloon variant. -/
def FaascaleMem.trigger_stats_update (d : FaascaleMem) :
    Option (Except FaascaleMemError (FaascaleMem × List Ev)) :=
  if d.activated then
    some (match d.stats_desc_index with
      | some idx =>
        .ok ({ d with stats_desc_index := none },
          [.addUsed STATS_INDEX idx, .irqVring])
      | none => .ok (d, []))
  else none

/-- `FaascaleMem::update_timer_state` (`faascale_mem/device.rs` lines
487-494). -/
def FaascaleMem.update_timer_state (d : FaascaleMem) : FaascaleMem :=
  { d with timer := some d.stats_polling_interval_s }

/-- `FaascaleMem::update_stats_polling_interval` (`faascale_mem/device.rs`
lines 471-485); same body as the balloon variant. -/
def FaascaleMem.update_stats_polling_interval (d : FaascaleMem)
    (interval_s : Nat) :
    Option (Except FaascaleMemError (FaascaleMem × List Ev)) :=
  if d.stats_polling_interval_s = interval_s then some (.ok (d, []))
  else if d.stats_polling_interval_s = 0 ∨ interval_s = 0 then
    some (.error .StatisticsStateChange)
  else
    match d.trigger_stats_update with
    | none => none
    | some (.error e) => some (.error e)
    | some (.ok (d', evs)) =>
      some (.ok (FaascaleMem.update_timer_state
        { d' with stats_polling_interval_s := interval_s }, evs))

/-- An activated balloon with stats interval 1 and no pending stats
descriptor, used to refute C2 as stated. -/
def balloonNoPending : Balloon :=
  { activated := true
    config_space := {}
    restored := false
    stats_polling_interval_s := 1
    stats_desc_index := none
    latest_stats := {}
    timer := none }

/-- Counterexample to C2 as stated: on an activated balloon with interval 1
and no pending stats descriptor, changing the interval to 2 succeeds and
stores the new interval but emits no event at all — in particular it does
not trigger one interrupt. -/
theorem update_stats_polling_interval_cex :
    Balloon.update_stats_polling_interval balloonNoPending 2 =
      some (.ok ({ balloonNoPending with
        stats_polling_interval_s := 2, timer := some 2 }, [])) := by
  rfl

/-- C2 (amended): for every device (balloon or faascale-mem) and interval,
`update_stats_polling_interval` returns `Ok` and changes nothing when the
new interval equals the current one; returns a `StatisticsStateChange`
error and leaves the interval unchanged when exactly one of the current and
new intervals is 0; and when both are nonzero and different and the device
is activated, it succeeds, sets the stored interval to the new value,
re-arms the timer, and triggers one interrupt exactly when a stats
descriptor is pending (acknowledging it), emitting no interrupt otherwise. -/
theorem update_stats_polling_interval_spec (b : Balloon) (f : FaascaleMem)
    (i : Nat) :
    (b.stats_polling_interval_s = i →
      b.update_stats_polling_interval i = some (.ok (b, []))) ∧
    (b.stats_polling_interval_s ≠ i →
      (b.stats_polling_interval_s = 0 ∨ i = 0) →
      b.update_stats_polling_interval i =
        some (.error .StatisticsStateChange)) ∧
    (b.stats_polling_interval_s ≠ i → b.stats_polling_interval_s ≠ 0 →
      i ≠ 0 → b.activated = true → b.stats_desc_index = none →
      b.update_stats_polling_interval i = some (.ok
        ({ b with stats_polling_interval_s := i, timer := some i }, []))) ∧
    (∀ idx, b.stats_polling_interval_s ≠ i → b.stats_polling_interval_s ≠ 0 →
      i ≠ 0 → b.activated = true → b.stats_desc_index = some idx →
      b.update_stats_polling_interval i = some (.ok
        ({ b with
            stats_desc_index := none
            stats_polling_interval_s := i
            timer := some i },
          [.addUsed STATS_INDEX idx, .irqVring]))) ∧
    (f.stats_polling_interval_s = i →
      f.update_stats_polling_interval i = some (.ok (f, []))) ∧
    (f.stats_polling_interval_s ≠ i →
      (f.stats_polling_interval_s = 0 ∨ i = 0) →
      f.update_stats_polling_interval i =
        some (.error .StatisticsStateChange)) ∧
    (f.stats_polling_interval_s ≠ i → f.stats_polling_interval_s ≠ 0 →
      i ≠ 0 → f.activated = true → f.stats_desc_index = none →
      f.update_stats_polling_interval i = some (.ok
        ({ f with stats_polling_interval_s := i, timer := some i }, []))) ∧
    (∀ idx, f.stats_polling_interval_s ≠ i → f.stats_polling_interval_s ≠ 0 →
      i ≠ 0 → f.activated = true → f.stats_desc_index = some idx →
      f.update_stats_polling_interval i = some (.ok
        ({ f with
            stats_desc_index := none
            stats_polling_interval_s := i
            timer := some i },
          [.addUsed STATS_INDEX idx, .irqVring]))) := by
  refine ⟨fun h => ?_, fun h h0 => ?_, fun h h0 hi hact hd => ?_,
    fun idx h h0 hi hact hd => ?_, fun h => ?_, fun h h0 => ?_,
    fun h h0 hi hact hd => ?_, fun idx h h0 hi hact hd => ?_⟩ <;>
    simp_all [Balloon.update_stats_polling_interval,
      Balloon.trigger_stats_update, Balloon.update_timer_state,
      FaascaleMem.update_stats_polling_interval,
      FaascaleMem.trigger_stats_update, FaascaleMem.update_timer_state]

/-- Witness for C2's amended theorem: concrete interval changes on a
balloon (1 → 1 no-op, 1 → 0 rejected, 1 → 2 with no pending descriptor)
and on a faascale-mem device (1 → 2 with pending descriptor 5). -/
theorem update_stats_polling_interval_spec_witness :
    Balloon.update_stats_polling_interval balloonNoPending 1 =
      some (.ok (balloonNoPending, [])) ∧
    Balloon.update_stats_polling_interval balloonNoPending 0 =
      some (.error .StatisticsStateChange) ∧
    Balloon.update_stats_polling_interval balloonNoPending 2 =
      some (.ok ({ balloonNoPending with
        stats_polling_interval_s := 2, timer := some 2 }, [])) ∧
    FaascaleMem.update_stats_polling_interval
      { FaascaleMem.new 1 false false false with
        activated := true, stats_desc_index := some 5 } 2 =
      some (.ok ({ FaascaleMem.new 1 false false false with
          activated := true
          stats_desc_index := none
          stats_polling_interval_s := 2
          timer := some 2 },
        [.addUsed STATS_INDEX 5, .irqVring])) := by
  obtain ⟨h1, h2, h3, h4, _⟩ :=
    update_stats_polling_interval_spec balloonNoPending
      (FaascaleMem.new 1 false false false) 1
  obtain ⟨_, h2', h3', h4', _⟩ :=
    update_stats_polling_interval_spec balloonNoPending
      { FaascaleMem.new 1 false false false with
        activated := true, stats_desc_index := some 5 } 0
  obtain ⟨_, _, h3'', _, _, _, _, h8''⟩ :=
    update_stats_polling_interval_spec balloonNoPending
      { FaascaleMem.new 1 false false false with
        activated := true, stats_desc_index := some 5 } 2
  exact ⟨h1 rfl, h2' (by decide) (Or.inr rfl), h3'' (by decide) (by decide)
    (by decide) rfl rfl, h8'' 5 (by decide) (by decide) (by decide) rfl rfl⟩

/-- C3: on a non-activated balloon `update_size` returns `DeviceNotActive`
and produces no new config space; on an activated device it writes
`amount_mib * 256` into `config_space.num_pages` and raises a
configuration-changed interrupt, except that when `amount_mib * 256`
overflows u32 it returns `TooManyPagesRequested`; concretely,
`update_size 16` makes `num_pages` 4096 = 0x1000, and reading the first
four config bytes back gives its little-endian encoding `[0x00, 0x10, 0x00,
0x00]`. -/
theorem update_size_spec (b : Balloon) (amount_mib : Nat) :
    (b.activated = false →
      b.update_size amount_mib = .error .DeviceNotActive) ∧
    (b.activated = true → amount_mib * 256 < 2 ^ 32 →
      b.update_size amount_mib = .ok
        ({ b with config_space :=
            { b.config_space with num_pages := amount_mib * 256 } },
          [.irqConfig])) ∧
    (b.activated = true → 2 ^ 32 ≤ amount_mib * 256 →
      b.update_size amount_mib = .error .TooManyPagesRequested) ∧
    (Balloon.update_size balloonNoPending 16 = .ok
      ({ balloonNoPending with
          config_space := { num_pages := 4096, actual_pages := 0 } },
        [.irqConfig]) ∧
      read_config (ConfigSpace.bytes
          { num_pages := 4096, actual_pages := 0 }) 0 [0, 0, 0, 0] =
        [0x00, 0x10, 0x00, 0x00]) := by
  refine ⟨fun h => ?_, fun h h32 => ?_, fun h h32 => ?_, by decide⟩
  · unfold Balloon.update_size
    rw [if_neg (by simp [h])]
  · unfold Balloon.update_size
    rw [if_pos h]
    unfold mib_to_pages MIB_TO_4K_PAGES
    rw [if_pos h32]
  · unfold Balloon.update_size
    rw [if_pos h]
    unfold mib_to_pages MIB_TO_4K_PAGES
    rw [if_neg (by omega)]

/-- Witness for C3: an inactive balloon rejects `update_size 1`; the same
device marked activated accepts `update_size 16` with the exact config
byte read-back. -/
theorem update_size_spec_witness :
    Balloon.update_size { balloonNoPending with activated := false } 1 =
      .error .DeviceNotActive ∧
    Balloon.update_size balloonNoPending 16 = .ok
      ({ balloonNoPending with
          config_space := { num_pages := 4096, actual_pages := 0 } },
        [.irqConfig]) ∧
    Balloon.update_size balloonNoPending (2 ^ 27) =
      .error .TooManyPagesRequested := by
  obtain ⟨h1, _, _, _⟩ :=
    update_size_spec { balloonNoPending with activated := false } 1
  obtain ⟨_, h2, h3, _⟩ := update_size_spec balloonNoPending (2 ^ 27)
  obtain ⟨_, _, _, h4, _⟩ := update_size_spec balloonNoPending 16
  exact ⟨h1 rfl, h4, h3 rfl (by norm_num)⟩

/-- A mapped guest-memory region (external `vm-memory` collaborator: offers
region lookup by start address and length, per spec section 4.2). -/
structure Region where
  start : Nat
  size : Nat
  deriving DecidableEq, Repr

/-- Containment of a guest address in a region. -/
def Region.holds (r : Region) (addr : Nat) : Bool :=
  r.start ≤ addr && addr < r.start + r.size

/-- External `guest_memory.find_region`: the first mapped region containing
the address. -/
def find_region (regions : List Region) (addr : Nat) : Option Region :=
  regions.find? (fun r => r.holds addr)

/-- Oracle for the host kernel and for address translation:
`get_host_address` result, and whether `mmap`/`madvise` succeed. -/
structure HostEnv where
  translate : Nat → Option Nat
  mmap_ok : Bool
  madvise_ok : Bool

/-- Host calls issued by the range operators, in program order. -/
inductive HostCall where
  | mmapAnon (hostAddr len : Nat)
  | madviseDontneed (hostAddr len : Nat)
  | madvisePopulateWrite (hostAddr len : Nat)
  | memcpyMarker (hostAddr : Nat)
  | ioctlPrealloc (guestAddr len : Nat)
  deriving DecidableEq, Repr

/-- `remove_range` (`faascale_mem/util.rs` lines 97-146).  The boundary
check is the unchecked (wrapping in release builds) u64 sum
`guest_address.0 + range_len > region.start_addr().0 + region.len()`; on a
restored device an anonymous private mapping is first mmapped over the
range; then `madvise(MADV_DONTNEED)` marks it unused.  Returns the result
together with the host-call trace. -/
def remove_range (regions : List Region) (env : HostEnv)
    (guest_address range_len : Nat) (restored : Bool) :
    Except RemoveRegionError Unit × List HostCall :=
  match find_region regions guest_address with
  | some region =>
    if (guest_address + range_len) % 2 ^ 64 >
        (region.start + region.size) % 2 ^ 64 then
      (.error .MalformedRange, [])
    else
      match env.translate guest_address with
      | none => (.error .AddressTranslation, [])
      | some phys =>
        if restored && !env.mmap_ok then
          (.error .MmapFail, [.mmapAnon phys range_len])
        else
          let calls := (if restored then [HostCall.mmapAnon phys range_len]
            else []) ++ [HostCall.madviseDontneed phys range_len]
          if env.madvise_ok then (.ok (), calls)
          else (.error .MadviseFail, calls)
  | none => (.error .RegionNotFound, [])

/-- `populate_range` (`faascale_mem/util.rs` lines 24-95).  Same region
resolution and restored-overlay as `remove_range`; then optionally
`madvise(MADV_POPULATE_WRITE)` when `pre_mem_alloc`, a six-byte diagnostic
marker `memcpy`, and optionally the `KVM_PREALLOC_USER_MEMORY_REGION`
ioctl when `pre_tdp_alloc` (whose result is ignored). -/
def populate_range (regions : List Region) (env : HostEnv)
    (guest_address range_len : Nat)
    (restored pre_mem_alloc pre_tdp_alloc : Bool) :
    Except RemoveRegionError Unit × List HostCall :=
  match find_region regions guest_address with
  | some region =>
    if (guest_address + range_len) % 2 ^ 64 >
        (region.start + region.size) % 2 ^ 64 then
      (.error .MalformedRange, [])
    else
      match env.translate guest_address with
      | none => (.error .AddressTranslation, [])
      | some phys =>
        if restored && !env.mmap_ok then
          (.error .MmapFail, [.mmapAnon phys range_len])
        else
          let pre := (if restored then [HostCall.mmapAnon phys range_len]
            else [])
          if pre_mem_alloc && !env.madvise_ok then
            (.error .MadviseFail,
              pre ++ [.madvisePopulateWrite phys range_len])
          else
            (.ok (), pre ++
              (if pre_mem_alloc then
                [HostCall.madvisePopulateWrite phys range_len] else []) ++
              [HostCall.memcpyMarker phys] ++
              (if pre_tdp_alloc then
                [HostCall.ioctlPrealloc guest_address range_len] else []))
  | none => (.error .RegionNotFound, [])

/-- Guest memory with a single region of 4096 bytes at address 0, and a
host environment where translation is the identity and every kernel call
succeeds, used to refute C4 as stated. -/
def cexRegions : List Region := [⟨0, 4096⟩]

/-- Identity-translation, all-calls-succeed host oracle. -/
def cexEnv : HostEnv := ⟨fun a => some a, true, true⟩

/-- Counterexample to C4 as stated: with a single region `[0, 4096)`, start
address 4095 inside it and length `2^64 - 4095`, the mathematical sum
`start + length = 2^64` exceeds the region end, yet `remove_range` does
not return `MalformedRange` — the wrapping u64 sum is 0, the check passes
and the call goes through to `madvise` and succeeds. -/
theorem remove_range_wrap_cex :
    remove_range cexRegions cexEnv 4095 (2 ^ 64 - 4095) false =
      (.ok (), [.madviseDontneed 4095 (2 ^ 64 - 4095)]) ∧
    0 + 4096 < 4095 + (2 ^ 64 - 4095) := by
  constructor
  · decide
  · norm_num

/-- C4 (amended): the range operators return `RegionNotFound` exactly when
no mapped region contains the start address; they return `MalformedRange`
exactly when the start lies in a region and the wrapped u64 sum
`(start + length) mod 2^64` exceeds the region's wrapped end (for
non-overflowing sums this is exactly `start + length` exceeding the
region's end); and when `restored` is true the first host call is the
anonymous private `mmap` overlay of the range, with `MmapFail` returned
and no `madvise` issued when that overlay fails. -/
theorem range_operator_spec (regions : List Region) (env : HostEnv)
    (a len : Nat) (restored pa pt : Bool) :
    ((remove_range regions env a len restored).fst =
        .error .RegionNotFound ↔ find_region regions a = none) ∧
    ((remove_range regions env a len restored).fst =
        .error .MalformedRange ↔
      ∃ r, find_region regions a = some r ∧
        (a + len) % 2 ^ 64 > (r.start + r.size) % 2 ^ 64) ∧
    (∀ r phys, find_region regions a = some r →
      ¬((a + len) % 2 ^ 64 > (r.start + r.size) % 2 ^ 64) →
      env.translate a = some phys → restored = true →
      (remove_range regions env a len restored).snd.head? =
        some (.mmapAnon phys len) ∧
      (env.mmap_ok = false → remove_range regions env a len restored =
        (.error .MmapFail, [.mmapAnon phys len]))) ∧
    ((populate_range regions env a len restored pa pt).fst =
        .error .RegionNotFound ↔ find_region regions a = none) ∧
    ((populate_range regions env a len restored pa pt).fst =
        .error .MalformedRange ↔
      ∃ r, find_region regions a = some r ∧
        (a + len) % 2 ^ 64 > (r.start + r.size) % 2 ^ 64) ∧
    (∀ r phys, find_region regions a = some r →
      ¬((a + len) % 2 ^ 64 > (r.start + r.size) % 2 ^ 64) →
      env.translate a = some phys → restored = true →
      (populate_range regions env a len restored pa pt).snd.head? =
        some (.mmapAnon phys len) ∧
      (env.mmap_ok = false →
        populate_range regions env a len restored pa pt =
          (.error .MmapFail, [.mmapAnon phys len]))) := by
  unfold remove_range populate_range
  cases hf : find_region regions a with
  | none => simp
  | some r =>
    by_cases hc : (a + len) % 2 ^ 64 > (r.start + r.size) % 2 ^ 64
    · simp_all
      refine ⟨?_, ?_⟩ <;> (rintro r' phys rfl hle ht hres; omega)
    · simp only [if_neg hc]
      cases ht : env.translate a with
      | none => simp_all
      | some phys =>
        by_cases hm : env.mmap_ok <;> by_cases hmv : env.madvise_ok <;>
          cases restored <;> cases pa <;> cases pt <;>
          simp_all

/-- Witness for C4's amended theorem: a region `[4096, 12288)`, a
translation adding 5, a failing `mmap`; for the restored range
`(6144, 256)` both operators issue the `mmap` overlay first and fail with
`MmapFail` without reaching `madvise`. -/
theorem range_operator_spec_witness :
    remove_range [⟨4096, 8192⟩] ⟨fun x => some (x + 5), false, true⟩
        6144 256 true = (.error .MmapFail, [.mmapAnon 6149 256]) ∧
    populate_range [⟨4096, 8192⟩] ⟨fun x => some (x + 5), false, true⟩
        6144 256 true true false =
      (.error .MmapFail, [.mmapAnon 6149 256]) := by
  obtain ⟨_, _, h3, _, _, h6⟩ :=
    range_operator_spec [⟨4096, 8192⟩] ⟨fun x => some (x + 5), false, true⟩
      6144 256 true true false
  obtain ⟨_, hb⟩ := h3 ⟨4096, 8192⟩ 6149 rfl (by decide) rfl rfl
  obtain ⟨_, hd⟩ := h6 ⟨4096, 8192⟩ 6149 rfl (by decide) rfl rfl
  exact ⟨hb rfl, hd rfl⟩

/-- Persisted device state `FaascaleMemState` (`faascale_mem/persist.rs`):
polling interval, pending stats-descriptor index, statistics snapshot,
config-space values, and the generic virtio state (here its activation
flag and feature bits; queue ring contents and interrupt status are owned
by external collaborators). -/
structure FaascaleMemState where
  stats_polling_interval_s : Nat
  stats_desc_index : Option Nat
  latest_stats : FaascaleMemStats
  config_num_pages : Nat
  config_actual_pages : Nat
  virtio_activated : Bool
  virtio_avail_features : Nat
  virtio_acked_features : Nat
  deriving DecidableEq, Repr

/-- `Persist::save` for `FaascaleMem` (`faascale_mem/persist.rs` lines
94-105). -/
def FaascaleMem.save (d : FaascaleMem) : FaascaleMemState :=
  { stats_polling_interval_s := d.stats_polling_interval_s
    stats_desc_index := d.stats_desc_index
    latest_stats := d.latest_stats
    config_num_pages := d.config_space.num_pages
    config_actual_pages := d.config_space.actual_pages
    virtio_activated := d.activated
    virtio_avail_features := d.avail_features
    virtio_acked_features := d.acked_features }

/-- `Persist::restore` for `FaascaleMem` (`faascale_mem/persist.rs` lines
107-154).  The device is rebuilt by `FaascaleMem::new(interval, true)`
(persist.rs passes only the interval and `restored = true`; the pre-alloc
flags are left at their defaults), the queue count is `NUM_QUEUES` minus
one when the persisted interval is 0 (`build_queues_checked`, an external
collaborator, is modelled as producing that many queues), features,
statistics and config space are overwritten from the persisted state, and
only when the persisted state was activated and stats are enabled are the
pending stats descriptor restored and the periodic timer re-armed. -/
def FaascaleMem.restore (st : FaascaleMemState) : FaascaleMem :=
  let dev := FaascaleMem.new st.stats_polling_interval_s true false false
  let num_queues := if st.stats_polling_interval_s = 0 then 2 else 3
  let dev := { dev with
    queueCount := num_queues
    avail_features := st.virtio_avail_features
    acked_features := st.virtio_acked_features
    latest_stats := st.latest_stats
    config_space := { num_pages := st.config_num_pages
                      actual_pages := st.config_actual_pages } }
  if st.virtio_activated then
    if 0 < dev.stats_polling_interval_s then
      { dev with
        activated := true
        stats_desc_index := st.stats_desc_index
        timer := some st.stats_polling_interval_s }
    else { dev with activated := true }
  else dev

/-- C9: `restore` reconstructs the device with `restored = true`, the
persisted polling interval, statistics snapshot and config-space values;
it rebuilds 3 queues when stats were enabled at snapshot time and 2 when
disabled; and it re-arms the periodic stats timer and restores the pending
stats-descriptor index exactly when the persisted state was activated and
stats are enabled. -/
theorem faascale_restore_spec (st : FaascaleMemState) :
    (FaascaleMem.restore st).restored = true ∧
    (FaascaleMem.restore st).stats_polling_interval_s =
      st.stats_polling_interval_s ∧
    (FaascaleMem.restore st).latest_stats = st.latest_stats ∧
    (FaascaleMem.restore st).config_space =
      { num_pages := st.config_num_pages
        actual_pages := st.config_actual_pages } ∧
    (FaascaleMem.restore st).avail_features = st.virtio_avail_features ∧
    (FaascaleMem.restore st).acked_features = st.virtio_acked_features ∧
    (FaascaleMem.restore st).queueCount =
      (if st.stats_polling_interval_s = 0 then 2 else 3) ∧
    (FaascaleMem.restore st).activated = st.virtio_activated ∧
    (FaascaleMem.restore st).timer =
      (if st.virtio_activated ∧ st.stats_polling_interval_s ≠ 0 then
        some st.stats_polling_interval_s else none) ∧
    (FaascaleMem.restore st).stats_desc_index =
      (if st.virtio_activated ∧ st.stats_polling_interval_s ≠ 0 then
        st.stats_desc_index else none) := by
  unfold FaascaleMem.restore FaascaleMem.new
  by_cases he : st.stats_polling_interval_s = 0 <;>
    cases hact : st.virtio_activated <;>
    simp_all [Nat.pos_iff_ne_zero]

/-- Head of a popped descriptor chain, as the devices use it:
`{addr, len, index, is_write_only}` (spec section 3; the chain is treated
as a single descriptor). -/
structure Desc where
  addr : Nat
  len : Nat
  index : Nat
  is_write_only : Bool
  deriving DecidableEq, Repr

/-- Offsets visited by `for index in (0..len).step_by(SIZE_OF_STAT)` with
`SIZE_OF_STAT = 10` (the packed 10-byte stat entry). -/
def statIndices (len : Nat) : List Nat :=
  (List.range ((len + 9) / 10)).map (fun k => 10 * k)

/-- Result of walking the stat entries of one descriptor: the (partially)
updated snapshot, the number of `stats_update_fails` metric increments, and
the error that aborted the walk, if any. -/
structure BalloonWalkOut where
  stats : BalloonStats
  metric : Nat
  err : Option BalloonError
  deriving DecidableEq, Repr

/-- The per-entry loop of `Balloon::process_stats_queue`
(`balloon/device.rs` lines 510-526): for each offset, `checked_add` the
offset to the descriptor address (overflow is `MalformedDescriptor`), read
the stat from guest memory (`MalformedDescriptor` on failure) and merge it
(`MalformedPayload` plus one metric increment on an unknown tag); each
error propagates out through `?`, keeping the updates already applied. -/
def balloonWalkStats (mem : Nat → Option BalloonStat) (addr : Nat)
    (idxs : List Nat) (s : BalloonStats) : BalloonWalkOut :=
  match idxs with
  | [] => ⟨s, 0, none⟩
  | i :: rest =>
    if addr + i < 2 ^ 64 then
      match mem (addr + i) with
      | none => ⟨s, 0, some .MalformedDescriptor⟩
      | some st =>
        match s.update_with_stat st with
        | .error _ => ⟨s, 1, some .MalformedPayload⟩
        | .ok s' => balloonWalkStats mem addr rest s'
    else ⟨s, 0, some .MalformedDescriptor⟩

/-- Result of one `process_stats_queue` drain. -/
structure BalloonDrainOut where
  stats : BalloonStats
  descIdx : Option Nat
  events : List Ev
  metric : Nat
  err : Option BalloonError
  deriving DecidableEq, Repr

/-- `Balloon::process_stats_queue` (`balloon/device.rs` lines 496-532):
pop each stats descriptor; if one is already pending, acknowledge the old
one first (without clearing `stats_desc_index`); walk the entries; on a
walk error the `?` aborts the whole drain (the new index is not recorded);
on success record the new descriptor index and continue with the next
descriptor. -/
def balloonProcessStatsQueue (mem : Nat → Option BalloonStat)
    (queue : List Desc) (s : BalloonStats) (descIdx : Option Nat) :
    BalloonDrainOut :=
  match queue with
  | [] => ⟨s, descIdx, [], 0, none⟩
  | head :: rest =>
    let ack : List Ev := match descIdx with
      | some prev => [.addUsed STATS_INDEX prev]
      | none => []
    let w := balloonWalkStats mem head.addr (statIndices head.len) s
    match w.err with
    | some e => ⟨w.stats, descIdx, ack, w.metric, some e⟩
    | none =>
      let out := balloonProcessStatsQueue mem rest w.stats (some head.index)
      ⟨out.stats, out.descIdx, ack ++ out.events, w.metric + out.metric,
        out.err⟩

/-- Result of walking the stat entries of one faascale-mem descriptor. -/
structure FaascaleWalkOut where
  stats : FaascaleMemStats
  metric : Nat
  err : Option FaascaleMemError
  deriving DecidableEq, Repr

/-- The per-entry loop of `FaascaleMem::process_stats_queue`
(`faascale_mem/device.rs` lines 411-427); same body as the balloon
variant. -/
def faascaleWalkStats (mem : Nat → Option FaascaleMemStat) (addr : Nat)
    (idxs : List Nat) (s : FaascaleMemStats) : FaascaleWalkOut :=
  match idxs with
  | [] => ⟨s, 0, none⟩
  | i :: rest =>
    if addr + i < 2 ^ 64 then
      match mem (addr + i) with
      | none => ⟨s, 0, some .MalformedDescriptor⟩
      | some st =>
        match s.update_with_stat st with
        | .error _ => ⟨s, 1, some .MalformedPayload⟩
        | .ok s' => faascaleWalkStats mem addr rest s'
    else ⟨s, 0, some .MalformedDescriptor⟩

/-- Result of one faascale-mem `process_stats_queue` drain. -/
structure FaascaleDrainOut where
  stats : FaascaleMemStats
  descIdx : Option Nat
  events : List Ev
  metric : Nat
  err : Option FaascaleMemError
  deriving DecidableEq, Repr

/-- `FaascaleMem::process_stats_queue` (`faascale_mem/device.rs` lines
397-433); same body as the balloon variant. -/
def faascaleProcessStatsQueue (mem : Nat → Option FaascaleMemStat)
    (queue : List Desc) (s : FaascaleMemStats) (descIdx : Option Nat) :
    FaascaleDrainOut :=
  match queue with
  | [] => ⟨s, descIdx, [], 0, none⟩
  | head :: rest =>
    let ack : List Ev := match descIdx with
      | some prev => [.addUsed STATS_INDEX prev]
      | none => []
    let w := faascaleWalkStats mem head.addr (statIndices head.len) s
    match w.err with
    | some e => ⟨w.stats, descIdx, ack, w.metric, some e⟩
    | none =>
      let out :=
        faascaleProcessStatsQueue mem rest w.stats (some head.index)
      ⟨out.stats, out.descIdx, ack ++ out.events, w.metric + out.metric,
        out.err⟩

/-- Guest memory for the C5 and C6 counterexamples: a stat entry with
unknown tag 99 at address 100, and a valid `swap_in` entry at address
200. -/
def cexStatMem : Nat → Option BalloonStat := fun a =>
  if a = 100 then some ⟨99, 0⟩ else if a = 200 then some ⟨0, 5⟩ else none

/-- Counterexample to C5 as stated: while descriptor 3 is pending, a new
stats descriptor with index 7 whose payload holds an unknown tag is
popped.  The old descriptor 3 is acknowledged, but the `?` aborts the
drain before `stats_desc_index = Some(head.index)` runs: the result still
has `descIdx = some 3`, and index 7 appears nowhere on the used ring — the
new descriptor is never acknowledged (a later `trigger_stats_update` would
re-acknowledge the stale index 3), so "both descriptors are eventually
acknowledged" fails. -/
theorem stats_pending_new_desc_lost_cex :
    balloonProcessStatsQueue cexStatMem [⟨100, 10, 7, false⟩] {}
        (some 3) =
      ⟨{}, some 3, [.addUsed STATS_INDEX 3], 1, some .MalformedPayload⟩ ∧
    Ev.addUsed STATS_INDEX 7 ∉
      (balloonProcessStatsQueue cexStatMem [⟨100, 10, 7, false⟩] {}
        (some 3)).events := by
  constructor
  · decide
  · decide

/-- C5 (amended): `stats_desc_index` holds at most one pending index (it
is an `Option`); when `process_stats_queue` pops a new stats descriptor
while one is pending, the old descriptor is acknowledged on the used ring
first, before the new index is recorded.  When the new descriptor's
entries all parse, its index is recorded and it is acknowledged (with an
interrupt) by the next `trigger_stats_update`, so both descriptors are
eventually acknowledged; but when the new descriptor's walk fails, the
drain aborts before recording the new index — the old descriptor was
still acknowledged first, the stale old index remains pending, and the
new descriptor is not acknowledged in that drain.  Stated for both the
balloon and the faascale-mem device. -/
theorem stats_queue_pending_flush_spec (mem : Nat → Option BalloonStat)
    (fmem : Nat → Option FaascaleMemStat) (head : Desc) (prev : Nat)
    (s : BalloonStats) (fs : FaascaleMemStats) (b : Balloon)
    (f : FaascaleMem) :
    ((balloonWalkStats mem head.addr (statIndices head.len) s).err = none →
      (balloonProcessStatsQueue mem [head] s (some prev)).events =
        [.addUsed STATS_INDEX prev] ∧
      (balloonProcessStatsQueue mem [head] s (some prev)).descIdx =
        some head.index ∧
      (balloonProcessStatsQueue mem [head] s (some prev)).err = none) ∧
    (∀ e, (balloonWalkStats mem head.addr (statIndices head.len) s).err =
        some e →
      balloonProcessStatsQueue mem [head] s (some prev) =
        ⟨(balloonWalkStats mem head.addr (statIndices head.len) s).stats,
          some prev, [.addUsed STATS_INDEX prev],
          (balloonWalkStats mem head.addr (statIndices head.len) s).metric,
          some e⟩) ∧
    (b.activated = true → b.stats_desc_index = some head.index →
      b.trigger_stats_update = some (.ok
        ({ b with stats_desc_index := none },
          [.addUsed STATS_INDEX head.index, .irqVring]))) ∧
    ((faascaleWalkStats fmem head.addr (statIndices head.len) fs).err =
        none →
      (faascaleProcessStatsQueue fmem [head] fs (some prev)).events =
        [.addUsed STATS_INDEX prev] ∧
      (faascaleProcessStatsQueue fmem [head] fs (some prev)).descIdx =
        some head.index ∧
      (faascaleProcessStatsQueue fmem [head] fs (some prev)).err = none) ∧
    (∀ e, (faascaleWalkStats fmem head.addr (statIndices head.len)
        fs).err = some e →
      faascaleProcessStatsQueue fmem [head] fs (some prev) =
        ⟨(faascaleWalkStats fmem head.addr (statIndices head.len)
            fs).stats,
          some prev, [.addUsed STATS_INDEX prev],
          (faascaleWalkStats fmem head.addr (statIndices head.len)
            fs).metric,
          some e⟩) ∧
    (f.activated = true → f.stats_desc_index = some head.index →
      f.trigger_stats_update = some (.ok
        ({ f with stats_desc_index := none },
          [.addUsed STATS_INDEX head.index, .irqVring]))) := by
  refine ⟨fun h => ?_, fun e he => ?_, fun ha hd => ?_, fun h => ?_,
    fun e he => ?_, fun ha hd => ?_⟩
  · simp [balloonProcessStatsQueue, h]
  · simp [balloonProcessStatsQueue, he]
  · simp [Balloon.trigger_stats_update, ha, hd]
  · simp [faascaleProcessStatsQueue, h]
  · simp [faascaleProcessStatsQueue, he]
  · simp [FaascaleMem.trigger_stats_update, ha, hd]

/-- Witness for C5's amended theorem: a zero-length stats descriptor with
index 7 arriving while descriptor 3 is pending is recorded after 3 is
acknowledged, and the following timer-driven `trigger_stats_update`
acknowledges 7 with one interrupt; the malformed descriptor at address
100 instead leaves the stale index 3 pending after acknowledging it. -/
theorem stats_queue_pending_flush_spec_witness :
    (balloonProcessStatsQueue (fun _ => none) [⟨0, 0, 7, false⟩] {}
        (some 3)).events = [.addUsed STATS_INDEX 3] ∧
    (balloonProcessStatsQueue (fun _ => none) [⟨0, 0, 7, false⟩] {}
        (some 3)).descIdx = some 7 ∧
    Balloon.trigger_stats_update
        { balloonNoPending with stats_desc_index := some 7 } =
      some (.ok ({ balloonNoPending with stats_desc_index := none },
        [.addUsed STATS_INDEX 7, .irqVring])) ∧
    balloonProcessStatsQueue cexStatMem [⟨100, 10, 7, false⟩] {}
        (some 3) =
      ⟨(balloonWalkStats cexStatMem 100 (statIndices 10) {}).stats,
        some 3, [.addUsed STATS_INDEX 3],
        (balloonWalkStats cexStatMem 100 (statIndices 10) {}).metric,
        some .MalformedPayload⟩ := by
  obtain ⟨h1, _, h2, _⟩ := stats_queue_pending_flush_spec (fun _ => none)
    (fun _ => none) ⟨0, 0, 7, false⟩ 3 {} {}
    { balloonNoPending with stats_desc_index := some 7 }
    (FaascaleMem.new 1 false false false)
  obtain ⟨_, hbad, _⟩ := stats_queue_pending_flush_spec cexStatMem
    (fun _ => none) ⟨100, 10, 7, false⟩ 3 {} {}
    { balloonNoPending with stats_desc_index := some 7 }
    (FaascaleMem.new 1 false false false)
  obtain ⟨ha, hb, _⟩ := h1 rfl
  exact ⟨ha, hb, h2 rfl rfl, hbad .MalformedPayload (by decide)⟩

/-- Counterexample to C6 as stated: a drain of two stats descriptors where
the first holds an unknown-tag entry.  The drain aborts with
`MalformedPayload` after one metric increment: the second (valid)
descriptor is neither applied (the snapshot still has `swap_in = none`)
nor acknowledged (no used-ring event at all) — processing does NOT
continue for subsequent descriptors of that drain. -/
theorem stats_drain_abort_cex :
    balloonProcessStatsQueue cexStatMem
        [⟨100, 10, 0, false⟩, ⟨200, 10, 1, false⟩] {} none =
      ⟨{}, none, [], 1, some .MalformedPayload⟩ ∧
    balloonProcessStatsQueue cexStatMem [⟨200, 10, 1, false⟩] {} none =
      ⟨{ swap_in := some 5 }, some 1, [], 0, none⟩ := by
  constructor
  · decide
  · decide

/-- C6 (amended): when a stats entry with an unknown tag is encountered
mid-descriptor, the remaining entries of that descriptor are not applied,
the failure metric is incremented once, and the whole drain call aborts
with `MalformedPayload` — the remaining descriptors of that drain are not
applied or acknowledged in that call (fail-fast is per drain call, the
error being caught by the event handler so the device does not crash);
an address overflow likewise aborts the drain with `MalformedDescriptor`,
without incrementing the metric. -/
theorem stats_drain_fail_fast_spec (mem : Nat → Option BalloonStat)
    (fmem : Nat → Option FaascaleMemStat) (addr i : Nat) (rest : List Nat)
    (s : BalloonStats) (fs : FaascaleMemStats) (st : BalloonStat)
    (fst : FaascaleMemStat) (head : Desc) (qrest : List Desc)
    (descIdx : Option Nat) :
    (addr + i < 2 ^ 64 → mem (addr + i) = some st → 10 ≤ st.tag →
      balloonWalkStats mem addr (i :: rest) s =
        ⟨s, 1, some .MalformedPayload⟩) ∧
    (¬(addr + i < 2 ^ 64) →
      balloonWalkStats mem addr (i :: rest) s =
        ⟨s, 0, some .MalformedDescriptor⟩) ∧
    (∀ e, (balloonWalkStats mem head.addr (statIndices head.len) s).err =
        some e →
      balloonProcessStatsQueue mem (head :: qrest) s descIdx =
        ⟨(balloonWalkStats mem head.addr (statIndices head.len) s).stats,
          descIdx,
          (match descIdx with
            | some prev => [Ev.addUsed STATS_INDEX prev]
            | none => []),
          (balloonWalkStats mem head.addr (statIndices head.len) s).metric,
          some e⟩) ∧
    (addr + i < 2 ^ 64 → fmem (addr + i) = some fst → 10 ≤ fst.tag →
      faascaleWalkStats fmem addr (i :: rest) fs =
        ⟨fs, 1, some .MalformedPayload⟩) ∧
    (∀ e, (faascaleWalkStats fmem head.addr (statIndices head.len)
        fs).err = some e →
      faascaleProcessStatsQueue fmem (head :: qrest) fs descIdx =
        ⟨(faascaleWalkStats fmem head.addr (statIndices head.len)
            fs).stats,
          descIdx,
          (match descIdx with
            | some prev => [Ev.addUsed STATS_INDEX prev]
            | none => []),
          (faascaleWalkStats fmem head.addr (statIndices head.len)
            fs).metric,
          some e⟩) := by
  refine ⟨fun hlt hm htag => ?_, fun hlt => ?_, fun e he => ?_,
    fun hlt hm htag => ?_, fun e he => ?_⟩
  · have hu := balloon_update_with_stat_tag_ge s st.tag st.val htag
    norm_num at hlt
    simp [balloonWalkStats, hlt, hm, hu]
  · norm_num at hlt
    simp [balloonWalkStats, hlt]
  · simp [balloonProcessStatsQueue, he]
  · have hu := faascale_update_with_stat_tag_ge fs fst.tag fst.val htag
    norm_num at hlt
    simp [faascaleWalkStats, hlt, hm, hu]
  · simp [faascaleProcessStatsQueue, he]

/-- Witness for C6's amended theorem: the concrete unknown-tag entry at
address 100 aborts the walk with one metric increment, and the concrete
two-descriptor drain aborts with `MalformedPayload` leaving the second
descriptor unprocessed. -/
theorem stats_drain_fail_fast_spec_witness :
    balloonWalkStats cexStatMem 100 (0 :: [10]) {} =
      ⟨{}, 1, some .MalformedPayload⟩ ∧
    balloonProcessStatsQueue cexStatMem
        [⟨100, 10, 0, false⟩, ⟨200, 10, 1, false⟩] {} none =
      ⟨(balloonWalkStats cexStatMem 100 (statIndices 10) {}).stats, none,
        [], (balloonWalkStats cexStatMem 100 (statIndices 10) {}).metric,
        some .MalformedPayload⟩ := by
  obtain ⟨h1, _, h3, _, _⟩ := stats_drain_fail_fast_spec cexStatMem
    (fun _ => none) 100 0 [10] {} {} ⟨99, 0⟩ ⟨0, 0⟩
    ⟨100, 10, 0, false⟩ [⟨200, 10, 1, false⟩] none
  exact ⟨h1 (by decide) (by decide) (by decide),
    h3 .MalformedPayload (by decide)⟩

/-- Size of a page-frame-number wire entry (`SIZE_OF_U32`,
`balloon/device.rs`). -/
def SIZE_OF_U32 : Nat := 4

/-- Maximum page-frame numbers per descriptor (`MAX_PAGES_IN_DESC = 256`,
balloon module; `VIRTIO_BALLOON_ARRAY_PFNS_MAX`). -/
def MAX_PAGES_IN_DESC : Nat := 256

/-- Capacity of the pfn scratch buffer (`MAX_PAGE_COMPACT_BUFFER = 2048`,
balloon module). -/
def MAX_PAGE_COMPACT_BUFFER : Nat := 2048

/-- Size of a (start_frame, length) block wire entry
(`SIZE_OF_BLOCK_INFO`, `faascale_mem/device.rs`). -/
def SIZE_OF_BLOCK_INFO : Nat := 8

/-- Maximum blocks per descriptor (`MAX_BLOCKS_IN_DESC = 128`,
`faascale_mem/mod.rs`). -/
def MAX_BLOCKS_IN_DESC : Nat := 128

/-- Offsets visited by `for index in (0..len).step_by(SIZE_OF_U32)`. -/
def pfnIndices (len : Nat) : List Nat :=
  (List.range ((len + 3) / 4)).map (fun k => 4 * k)

/-- The pfn-reading inner `for` of `Balloon::process_inflate_queue`
(`balloon/device.rs` lines 416-431): `checked_add` the offset
(`MalformedDescriptor` on u64 overflow), `read_obj::<u32>` each pfn
(`MalformedDescriptor` on failure); returns the pfns read before any
error, and the error. -/
def readPfns (mem : Nat → Option Nat) (addr : Nat) (idxs : List Nat) :
    List Nat × Option BalloonError :=
  match idxs with
  | [] => ([], none)
  | i :: rest =>
    if addr + i < 2 ^ 64 then
      match mem (addr + i) with
      | none => ([], some .MalformedDescriptor)
      | some p =>
        let out := readPfns mem addr rest
        (p :: out.fst, out.snd)
    else ([], some .MalformedDescriptor)

/-- Result of the inner descriptor-processing loop of
`process_inflate_queue`: descriptors still in the queue (after an
`undo_pop`), the pfn scratch buffer, the acknowledged descriptor indices,
the `valid_descs_found` flag and the aborting error, if any. -/
structure InflateLoopOut where
  remaining : List Desc
  buf : List Nat
  used : List Nat
  validFound : Bool
  err : Option BalloonError
  deriving DecidableEq, Repr

/-- The inner `while let Some(head) = queue.pop(mem)` loop of
`Balloon::process_inflate_queue` (`balloon/device.rs` lines 376-441):
a write-only or misaligned descriptor is acknowledged with no other
effect; an aligned read-only descriptor longer than
`MAX_PAGES_IN_DESC * SIZE_OF_U32` is skipped (`continue`) without being
acknowledged; when the scratch buffer cannot hold the descriptor's pfns,
`undo_pop` pushes it back and the loop breaks; otherwise its pfns are
accumulated and the descriptor is acknowledged; a read error propagates
out through `?`, aborting the drain. -/
def balloonInflateLoop (mem : Nat → Option Nat) (queue : List Desc)
    (buf used : List Nat) (validFound : Bool) : InflateLoopOut :=
  match queue with
  | [] => ⟨[], buf, used, validFound, none⟩
  | head :: rest =>
    if head.is_write_only = false ∧ head.len % SIZE_OF_U32 = 0 then
      if head.len > MAX_PAGES_IN_DESC * SIZE_OF_U32 then
        balloonInflateLoop mem rest buf used true
      else if MAX_PAGE_COMPACT_BUFFER - buf.length <
          head.len / SIZE_OF_U32 then
        ⟨head :: rest, buf, used, true, none⟩
      else
        let r := readPfns mem head.addr (pfnIndices head.len)
        match r.snd with
        | some e => ⟨rest, buf ++ r.fst, used, true, some e⟩
        | none =>
          balloonInflateLoop mem rest (buf ++ r.fst)
            (used ++ [head.index]) true
    else
      balloonInflateLoop mem rest buf (used ++ [head.index]) true

/-- Insertion into a sorted pfn list, for the compactor model. -/
def insertPfn (x : Nat) : List Nat → List Nat
  | [] => [x]
  | y :: ys => if x ≤ y then x :: y :: ys else y :: insertPfn x ys

/-- Insertion sort of a pfn list, for the compactor model. -/
def sortPfns : List Nat → List Nat
  | [] => []
  | x :: xs => insertPfn x (sortPfns xs)

/-- Accumulate maximal consecutive runs of a sorted pfn list. -/
def runsFrom (start count : Nat) : List Nat → List (Nat × Nat)
  | [] => [(start, count)]
  | y :: ys =>
    if y = start + count then runsFrom start (count + 1) ys
    else (start, count) :: runsFrom y 1 ys

/-- Modelled from the spec: `compact_page_frame_numbers` lives in
`balloon/util.rs`, which is not among the provided sources; per spec
section 4.1 it merges the buffer's page-frame numbers into maximal runs of
consecutive integers (sort-then-merge), consuming the buffer. -/
def compact_page_frame_numbers (pfns : List Nat) : List (Nat × Nat) :=
  match sortPfns pfns with
  | [] => []
  | x :: xs => runsFrom x 1 xs

/-- Result of a full `process_inflate_queue` drain: acknowledged
descriptor indices, memory-operation events, and the aborting error. -/
structure InflateOut where
  used : List Nat
  events : List Ev
  err : Option BalloonError
  deriving DecidableEq, Repr

/-- The outer `while valid_descs_found` loop of
`Balloon::process_inflate_queue` (`balloon/device.rs` lines 365-463): run
the inner loop, compact the scratch buffer into ranges, `remove_range`
each range (pfn and length shifted by `VIRTIO_BALLOON_PFN_SHIFT = 12`;
failures are logged, not propagated), and repeat while descriptors were
found.  An inner-loop error aborts the whole call before compaction.  The
fuel argument bounds the outer iterations (`none` when exhausted). -/
def balloonProcessInflate (mem : Nat → Option Nat) (restored : Bool) :
    Nat → List Desc → List Nat → List Nat → List Ev → Option InflateOut
  | 0, _, _, _, _ => none
  | fuel + 1, queue, buf, used, evs =>
    let r := balloonInflateLoop mem queue buf used false
    match r.err with
    | some e => some ⟨r.used, evs, some e⟩
    | none =>
      let ranges := compact_page_frame_numbers r.buf
      let evs' := evs ++ ranges.map (fun p =>
        Ev.memRemove (p.fst * 4096) (p.snd * 4096) restored)
      if r.validFound then
        balloonProcessInflate mem restored fuel r.remaining [] r.used evs'
      else
        some ⟨r.used, evs', none⟩

/-- Offsets visited by `for index in (0..len).step_by(SIZE_OF_BLOCK_INFO)`. -/
def blockIndices (len : Nat) : List Nat :=
  (List.range ((len + 7) / 8)).map (fun k => 8 * k)

/-- The block-reading loop of `FaascaleMem::process_populate_queue`
(`faascale_mem/device.rs` lines 336-347): `checked_add` the offset and
`read_obj::<[u32; 2]>` each (start_frame, length) block; returns the
blocks read before any error, and the error. -/
def readBlocks (mem : Nat → Option (Nat × Nat)) (addr : Nat)
    (idxs : List Nat) : List (Nat × Nat) × Option FaascaleMemError :=
  match idxs with
  | [] => ([], none)
  | i :: rest =>
    if addr + i < 2 ^ 64 then
      match mem (addr + i) with
      | none => ([], some .MalformedDescriptor)
      | some b =>
        let out := readBlocks mem addr rest
        (b :: out.fst, out.snd)
    else ([], some .MalformedDescriptor)

/-- The per-block dispatch of `process_populate_queue`
(`faascale_mem/device.rs` lines 352-376): on the populate queue (index 0)
each block becomes a `populate_range` call, on the depopulate queue
(index 1) a `remove_range` call, any other index does nothing; addresses
and lengths are frame counts shifted by `VIRTIO_FAASCALE_MEM_PFN_SHIFT =
12`. -/
def blockEvents (queueIndex : Nat) (restored pa pt : Bool)
    (blocks : List (Nat × Nat)) : List Ev :=
  match queueIndex with
  | 0 => blocks.map (fun b =>
      .memPopulate (b.fst * 4096) (b.snd * 4096) restored pa pt)
  | 1 => blocks.map (fun b =>
      .memRemove (b.fst * 4096) (b.snd * 4096) restored)
  | _ => []

/-- Result of a `process_populate_queue` drain. -/
structure PopulateOut where
  used : List Nat
  events : List Ev
  err : Option FaascaleMemError
  deriving DecidableEq, Repr

/-- `FaascaleMem::process_populate_queue` (`faascale_mem/device.rs` lines
293-395): pop each descriptor; a write-only or misaligned one is
acknowledged with no memory effect; an aligned read-only one longer than
`MAX_BLOCKS_IN_DESC * SIZE_OF_BLOCK_INFO` is skipped (`continue`) without
acknowledgment; otherwise each block is read and dispatched to the range
operator (failures of the range operator are only logged), then the
descriptor is acknowledged; a block read error aborts the whole drain
through `?`, keeping the effects already produced. -/
def faascaleProcessPopulateQueue (mem : Nat → Option (Nat × Nat))
    (queue : List Desc) (queueIndex : Nat) (restored pa pt : Bool) :
    PopulateOut :=
  match queue with
  | [] => ⟨[], [], none⟩
  | head :: rest =>
    if head.is_write_only = false ∧ head.len % SIZE_OF_BLOCK_INFO = 0 then
      if head.len > MAX_BLOCKS_IN_DESC * SIZE_OF_BLOCK_INFO then
        faascaleProcessPopulateQueue mem rest queueIndex restored pa pt
      else
        let r := readBlocks mem head.addr (blockIndices head.len)
        match r.snd with
        | some e =>
          ⟨[], blockEvents queueIndex restored pa pt r.fst, some e⟩
        | none =>
          let out :=
            faascaleProcessPopulateQueue mem rest queueIndex restored pa pt
          ⟨head.index :: out.used,
            blockEvents queueIndex restored pa pt r.fst ++ out.events,
            out.err⟩
    else
      let out :=
        faascaleProcessPopulateQueue mem rest queueIndex restored pa pt
      ⟨head.index :: out.used, out.events, out.err⟩

/-- C8: during inflate (balloon) and populate (faascale-mem) queue
processing, a popped write-only descriptor is acknowledged via `add_used`
but contributes no page-frame numbers and produces no memory operation;
a descriptor whose byte length is not a multiple of the entry wire size is
treated the same way, without a panic.  Concretely, a full drain of one
write-only descriptor acknowledges it and performs zero memory
operations. -/
theorem invalid_desc_acked_no_effect_spec (mem : Nat → Option Nat)
    (bmem : Nat → Option (Nat × Nat)) (head : Desc) (rest : List Desc)
    (buf used : List Nat) (vf : Bool) (qi : Nat) (restored pa pt : Bool) :
    (head.is_write_only = true →
      balloonInflateLoop mem (head :: rest) buf used vf =
        balloonInflateLoop mem rest buf (used ++ [head.index]) true) ∧
    (head.len % SIZE_OF_U32 ≠ 0 →
      balloonInflateLoop mem (head :: rest) buf used vf =
        balloonInflateLoop mem rest buf (used ++ [head.index]) true) ∧
    (head.is_write_only = true →
      faascaleProcessPopulateQueue bmem (head :: rest) qi restored pa pt =
        ⟨head.index ::
            (faascaleProcessPopulateQueue bmem rest qi restored pa pt).used,
          (faascaleProcessPopulateQueue bmem rest qi restored pa pt).events,
          (faascaleProcessPopulateQueue bmem rest qi restored pa
            pt).err⟩) ∧
    (head.len % SIZE_OF_BLOCK_INFO ≠ 0 →
      faascaleProcessPopulateQueue bmem (head :: rest) qi restored pa pt =
        ⟨head.index ::
            (faascaleProcessPopulateQueue bmem rest qi restored pa pt).used,
          (faascaleProcessPopulateQueue bmem rest qi restored pa pt).events,
          (faascaleProcessPopulateQueue bmem rest qi restored pa
            pt).err⟩) ∧
    balloonProcessInflate (fun _ => none) false 2 [⟨0, 4, 9, true⟩] [] []
        [] = some ⟨[9], [], none⟩ ∧
    faascaleProcessPopulateQueue (fun _ => none) [⟨0, 8, 9, true⟩] 1 false
        false false = ⟨[9], [], none⟩ := by
  refine ⟨fun h => ?_, fun h => ?_, fun h => ?_, fun h => ?_,
    by decide, by decide⟩
  · simp [balloonInflateLoop, h]
  · simp [balloonInflateLoop, h]
  · simp [faascaleProcessPopulateQueue, h]
  · simp [faascaleProcessPopulateQueue, h]

/-- Witness for C8: the write-only descriptor `⟨0, 4, 9, true⟩` and the
misaligned descriptor `⟨0, 5, 2, false⟩` each reduce to an acknowledgment
with no other effect. -/
theorem invalid_desc_acked_no_effect_spec_witness :
    balloonInflateLoop (fun _ => none) [⟨0, 4, 9, true⟩] [] [] false =
      balloonInflateLoop (fun _ => none) [] [] [9] true ∧
    balloonInflateLoop (fun _ => none) [⟨0, 5, 2, false⟩] [] [] false =
      balloonInflateLoop (fun _ => none) [] [] [2] true ∧
    faascaleProcessPopulateQueue (fun _ => none) [⟨0, 5, 2, false⟩] 0 false
        false false =
      ⟨2 :: (faascaleProcessPopulateQueue (fun _ => none) [] 0 false false
          false).used,
        (faascaleProcessPopulateQueue (fun _ => none) [] 0 false false
          false).events,
        (faascaleProcessPopulateQueue (fun _ => none) [] 0 false false
          false).err⟩ := by
  obtain ⟨h1, _, _, _, _, _⟩ := invalid_desc_acked_no_effect_spec
    (fun _ => none) (fun _ => none) ⟨0, 4, 9, true⟩ [] [] [] false 0
    false false false
  obtain ⟨_, h2, _, h4, _, _⟩ := invalid_desc_acked_no_effect_spec
    (fun _ => none) (fun _ => none) ⟨0, 5, 2, false⟩ [] [] [] false 0
    false false false
  exact ⟨h1 rfl, h2 (by decide), h4 (by decide)⟩

/-- C10: a descriptor whose length is a multiple of the entry size but
exceeds the per-descriptor maximum (`MAX_PAGES_IN_DESC * SIZE_OF_U32` for
the balloon inflate queue, `MAX_BLOCKS_IN_DESC * SIZE_OF_BLOCK_INFO` for
the faascale-mem populate/depopulate queues) is skipped with no memory
operation and without `add_used`, so it is never acknowledged within that
drain — unlike write-only or misaligned descriptors.  Concretely, a drain
of one oversized descriptor acknowledges nothing and performs no memory
operation. -/
theorem oversized_desc_never_acked_spec (mem : Nat → Option Nat)
    (bmem : Nat → Option (Nat × Nat)) (head : Desc) (rest : List Desc)
    (buf used : List Nat) (vf : Bool) (qi : Nat) (restored pa pt : Bool) :
    (head.is_write_only = false → head.len % SIZE_OF_U32 = 0 →
      head.len > MAX_PAGES_IN_DESC * SIZE_OF_U32 →
      balloonInflateLoop mem (head :: rest) buf used vf =
        balloonInflateLoop mem rest buf used true) ∧
    (head.is_write_only = false → head.len % SIZE_OF_BLOCK_INFO = 0 →
      head.len > MAX_BLOCKS_IN_DESC * SIZE_OF_BLOCK_INFO →
      faascaleProcessPopulateQueue bmem (head :: rest) qi restored pa pt =
        faascaleProcessPopulateQueue bmem rest qi restored pa pt) ∧
    balloonProcessInflate (fun _ => none) false 2 [⟨0, 2048, 9, false⟩] []
        [] [] = some ⟨[], [], none⟩ ∧
    faascaleProcessPopulateQueue (fun _ => none) [⟨0, 2048, 9, false⟩] 1
        false false false = ⟨[], [], none⟩ := by
  refine ⟨fun h1 h2 h3 => ?_, fun h1 h2 h3 => ?_, by decide, by decide⟩
  · simp [balloonInflateLoop, h1, h2, h3]
  · simp [faascaleProcessPopulateQueue, h1, h2, h3]

/-- Witness for C10: the oversized descriptor `⟨0, 2048, 9, false⟩`
(2048-byte payload, above the 1024-byte maximum of both devices) is
dropped from the queue with no acknowledgment and no other state change. -/
theorem oversized_desc_never_acked_spec_witness :
    balloonInflateLoop (fun _ => none) [⟨0, 2048, 9, false⟩] [] [] false =
      balloonInflateLoop (fun _ => none) [] [] [] true ∧
    faascaleProcessPopulateQueue (fun _ => none) [⟨0, 2048, 9, false⟩] 1
        false false false =
      faascaleProcessPopulateQueue (fun _ => none) [] 1 false false
        false := by
  obtain ⟨h1, h2, _, _⟩ := oversized_desc_never_acked_spec (fun _ => none)
    (fun _ => none) ⟨0, 2048, 9, false⟩ [] [] [] false 1 false false false
  exact ⟨h1 rfl (by decide) (by decide), h2 rfl (by decide) (by decide)⟩

end FcMem
